import Mathlib

/-!
Volume lifecycle controller (`controller/controller.go`).

A shallow embedding of the FlexVolume controller and of the functions it calls,
followed by theorems about its lifecycle operations.

Conventions of the embedding:

* a Go `error` value is a `GoError`; a possibly-nil `error` is `Option GoError`;
  a `(value, error)` result whose value is only read when the error is nil is
  an `Except GoError value`;
* the storage client (`resources.StorageClient`) and the host operating system
  (`os.Stat`, `os.MkdirAll`, `exec.Command(..).Output()`) are handlers over an
  arbitrary state type `σ`: each handler reads the state and returns its
  result with the next state, so that any deterministic behaviour of the
  collaborators, stateful or not, is an instance;
* every operation returns its response together with the list of the calls it
  made to the collaborators, in order, and the final state;
* calls to the logger write to a log only and are left out.
-/

namespace Ubiquity

/-! ## Data model -/

/-- A Go `error` value as the controller observes it: `text` is `err.Error()`,
`goSyntax` is its rendering under the `%#v` verb, `isNotExist` and `isExist`
are `os.IsNotExist(err)` and `os.IsExist(err)`. -/
structure GoError where
  text : String
  goSyntax : String
  isNotExist : Bool := false
  isExist : Bool := false
  deriving DecidableEq, Repr

/-- The error built by `fmt.Errorf(msg)` for a message without verbs and
without bytes that `%#v` escapes: an `*errors.errorString`. -/
def Errorf (msg : String) : GoError :=
  { text := msg, goSyntax := "&errors.errorString\x7bs:\"" ++ msg ++ "\"\x7d" }

/-- Modelled from the spec: the type `resources.VolumeMetadata`, declared
outside this repository; the fields are those of the spec's data model,
`{name, mountpoint}`. The default value is Go's zero value. -/
structure VolumeMetadata where
  Name : String := ""
  Mountpoint : String := ""
  deriving DecidableEq, Repr

/-- Modelled from the spec: the type `resources.FlexVolumeResponse`, declared
outside this repository; the fields are those of the spec's response envelope,
`{status, message, device, attached, volumeName}`. The default value is Go's
zero value. -/
structure FlexVolumeResponse where
  Status : String := ""
  Message : String := ""
  Device : String := ""
  Attached : Bool := false
  VolumeName : String := ""
  deriving DecidableEq, Repr

/-- Modelled from the spec: the type `resources.FlexVolumeMountRequest`,
declared outside this repository, with the fields `Mount` reads. -/
structure FlexVolumeMountRequest where
  MountPath : String := ""
  MountDevice : String := ""
  deriving DecidableEq, Repr

/-- Modelled from the spec: the type `resources.FlexVolumeUnmountRequest`,
declared outside this repository, with the field `Unmount` reads. -/
structure FlexVolumeUnmountRequest where
  MountPath : String := ""
  deriving DecidableEq, Repr

/-- Modelled from the spec: the type `resources.FlexVolumeDetachRequest`,
declared outside this repository, with the field `Detach` reads. -/
structure FlexVolumeDetachRequest where
  Name : String := ""
  deriving DecidableEq, Repr

/-! ## Go maps with string keys -/

/-- A Go `map[string]string` as an association list; the binding of a key is
its first occurrence. -/
abbrev GoMap := List (String × String)

/-- The lookup `m[key]` with its presence flag. -/
def GoMap.get (m : GoMap) (key : String) : Option String :=
  match m with
  | [] => none
  | (k, v) :: rest => if k = key then some v else GoMap.get rest key

/-- The assignment `m[key] = value`. -/
def GoMap.set (m : GoMap) (key value : String) : GoMap :=
  match m with
  | [] => [(key, value)]
  | (k, v) :: rest => if k = key then (k, value) :: rest else (k, v) :: GoMap.set rest key value

/-- The entries a `range` loop over the map visits: one per bound key. -/
def GoMap.rangeAux (seen : List String) : GoMap → GoMap
  | [] => []
  | (k, v) :: rest =>
    if k ∈ seen then GoMap.rangeAux seen rest else (k, v) :: GoMap.rangeAux (k :: seen) rest

/-- The entries of the map. -/
def GoMap.range (m : GoMap) : GoMap := GoMap.rangeAux [] m

/-- Insertion of an entry into a list of entries sorted by key. -/
def GoMap.insertByKey (e : String × String) : GoMap → GoMap
  | [] => [e]
  | x :: rest => if e.1 < x.1 then e :: x :: rest else x :: GoMap.insertByKey e rest

/-- The rendering of a map under the `%v` verb: `map[k1:v1 k2:v2]`, keys in
increasing order. -/
def GoMap.fmtV (m : GoMap) : String :=
  "map[" ++ " ".intercalate (((GoMap.range m).foldr GoMap.insertByKey []).map
    (fun e => e.1 ++ ":" ++ e.2)) ++ "]"

/-! ## `path.Clean`, `path.Join` and `filepath.Dir` (Go standard library, POSIX) -/

/-- The inner loop of a `..` element in `Clean`: starting from write index `w`,
step back while `w > dotdot` and the byte at `w` is not a slash. -/
def cleanBack (out : List Char) (dotdot : Nat) : Nat → Nat
  | 0 => 0
  | w + 1 => if w + 1 > dotdot ∧ out.get? (w + 1) ≠ some '/' then cleanBack out dotdot w else w + 1

/-- The main loop of `Clean`: `rest` is the unread part of the path, `out` the
buffer written so far, `dotdot` the index up to which the buffer may not be
backtracked. Each round reads at least one byte; the first argument bounds the
number of rounds. -/
def cleanLoop (rooted : Bool) : Nat → List Char → List Char → Nat → List Char
  | 0, _, out, _ => out
  | _ + 1, [], out, _ => out
  | fuel + 1, c :: t, out, dotdot =>
    if c = '/' then
      cleanLoop rooted fuel t out dotdot
    else if c = '.' ∧ (t = [] ∨ t.head? = some '/') then
      cleanLoop rooted fuel t out dotdot
    else if c = '.' ∧ t.head? = some '.' ∧ (t.tail = [] ∨ t.tail.head? = some '/') then
      if out.length > dotdot then
        cleanLoop rooted fuel t.tail (out.take (cleanBack out dotdot (out.length - 1))) dotdot
      else if !rooted then
        let out1 := if out.length > 0 then out ++ ['/'] else out
        let out2 := out1 ++ ['.', '.']
        cleanLoop rooted fuel t.tail out2 out2.length
      else
        cleanLoop rooted fuel t.tail out dotdot
    else
      let out1 :=
        if (rooted ∧ out.length ≠ 1) ∨ (!rooted ∧ out.length ≠ 0) then out ++ ['/'] else out
      cleanLoop rooted fuel ((c :: t).dropWhile (fun x => x ≠ '/'))
        (out1 ++ (c :: t).takeWhile (fun x => x ≠ '/')) dotdot

/-- The function `Clean` on the bytes of a path. -/
def cleanChars (p : List Char) : List Char :=
  if p = [] then ['.']
  else
    let rooted := p.head? = some '/'
    let out := cleanLoop rooted (p.length + 1)
      (if rooted then p.tail else p) (if rooted then ['/'] else []) (if rooted then 1 else 0)
    if out.length = 0 then ['.'] else out

/-- The function `path.Join` for two elements: the non-empty elements joined by
a slash and cleaned; the empty string when both are empty. -/
def pathJoin (a b : String) : String :=
  if a.data.length + b.data.length = 0 then ""
  else if a.data = [] then String.mk (cleanChars b.data)
  else if b.data = [] then String.mk (cleanChars a.data)
  else String.mk (cleanChars (a.data ++ '/' :: b.data))

/-- The index loop of `filepath.Dir`: the part of the path up to and including
its last separator. -/
def dirPrefix (p : List Char) : List Char :=
  (p.reverse.dropWhile (fun x => x ≠ '/')).reverse

/-- The function `filepath.Dir` where the volume name is empty. -/
def filepathDir (p : String) : String :=
  String.mk (cleanChars (dirPrefix p.data))

/-! ## The directory resolver -/

/-- The function `getVolumeForMountpoint`: the first volume of the list whose
mountpoint is the given one, or the zero volume with an error. -/
def getVolumeForMountpoint (mountpoint : String) :
    List VolumeMetadata → VolumeMetadata × Option GoError
  | [] => ({}, some (Errorf "Volume not found"))
  | volume :: rest =>
    if volume.Mountpoint = mountpoint then (volume, none)
    else getVolumeForMountpoint mountpoint rest

/-! ## Collaborators -/

/-- Modelled from the spec: the interface `resources.StorageClient`, declared
outside this repository, with the six calls of the spec's control-plane client
contract. Each call reads the collaborators' state and returns its result with
the next state. -/
structure StorageClient (σ : Type) where
  Activate : σ → Option GoError × σ
  GetVolume : String → σ → Except GoError VolumeMetadata × σ
  CreateVolume : String → GoMap → σ → Option GoError × σ
  Attach : String → σ → Except GoError String × σ
  Detach : String → σ → Option GoError × σ
  ListVolumes : σ → Except GoError (List VolumeMetadata) × σ

/-- The host primitives `Mount` calls: `os.Stat(name)` (only its error is
read), `os.MkdirAll(path, perm)` and `exec.Command(name, args...).Output()`
(only its error is read). -/
structure HostOS (σ : Type) where
  Stat : String → σ → Option GoError × σ
  MkdirAll : String → Nat → σ → Option GoError × σ
  Output : String → List String → σ → Option GoError × σ

/-- The controller: its storage client, and the host it runs on. -/
structure Controller (σ : Type) where
  Client : StorageClient σ
  os : HostOS σ

/-- One call made to a collaborator, with its arguments. -/
inductive Call where
  | activate
  | getVolume (name : String)
  | createVolume (name : String) (opts : GoMap)
  | attach (name : String)
  | detach (name : String)
  | listVolumes
  | stat (name : String)
  | mkdirAll (path : String) (perm : Nat)
  | exec (name : String) (args : List String)
  deriving DecidableEq, Repr

/-- Whether a call is a `CreateVolume`. -/
def Call.isCreateVolume : Call → Bool
  | .createVolume _ _ => true
  | _ => false

/-- Whether a call is a `Detach`. -/
def Call.isDetach : Call → Bool
  | .detach _ => true
  | _ => false

/-- Whether a call creates a directory. -/
def Call.isMkdirAll : Call → Bool
  | .mkdirAll _ _ => true
  | _ => false

/-- Whether a call runs a command. -/
def Call.isExec : Call → Bool
  | .exec _ _ => true
  | _ => false

/-- What an operation leaves: its response, the calls it made in order, and the
collaborators' state after it. -/
structure Result (σ : Type) where
  resp : FlexVolumeResponse
  calls : List Call
  st : σ

/-! ## The lifecycle operations -/

/-- The method `Controller.Init`. -/
def Init {σ : Type} (c : Controller σ) (s : σ) : Result σ :=
  match c.Client.Activate s with
  | (some err, s1) =>
    { resp := { Status := "Failure",
                Message := "Plugin init failed " ++ err.goSyntax ++ " ",
                Device := "" },
      calls := [.activate], st := s1 }
  | (none, s1) =>
    { resp := { Status := "Success", Message := "Plugin init successfully", Device := "" },
      calls := [.activate], st := s1 }

/-- The text `fmt.Sprintf("Volume %s already exists", volumeName)`, the name
between backquotes. -/
def alreadyExistsText (volumeName : String) : String :=
  "Volume `" ++ volumeName ++ "` already exists"

/-- The options `Attach` forwards: a fresh map filled by a `range` loop over
the request. -/
def attachOpts (attachRequest : GoMap) : GoMap :=
  (GoMap.range attachRequest).foldl (fun opts e => GoMap.set opts e.1 e.2) []

/-- The method `Controller.Attach`. -/
def Attach {σ : Type} (c : Controller σ) (s : σ) (attachRequest : GoMap) : Result σ :=
  match GoMap.get attachRequest "volumeName" with
  | none =>
    { resp := { Status := "Failure",
                Message := "Failed to attach volume: VolumeName not found : #"
                  ++ GoMap.fmtV attachRequest,
                Device := "" },
      calls := [], st := s }
  | some volumeName =>
    let opts := attachOpts attachRequest
    match c.Client.GetVolume volumeName s with
    | (.error err, s1) =>
      if err.text = "Volume not found" then
        match c.Client.CreateVolume volumeName opts s1 with
        | (some err2, s2) =>
          if err2.text ≠ alreadyExistsText volumeName then
            { resp := { Status := "Failure",
                        Message := "Failed to attach volume: " ++ err2.goSyntax,
                        Device := volumeName },
              calls := [.getVolume volumeName, .createVolume volumeName opts], st := s2 }
          else
            { resp := { Status := "Success", Message := "Volume already attached",
                        Device := volumeName },
              calls := [.getVolume volumeName, .createVolume volumeName opts], st := s2 }
        | (none, s2) =>
          { resp := { Status := "Success", Message := "Volume attached successfully",
                      Device := volumeName },
            calls := [.getVolume volumeName, .createVolume volumeName opts], st := s2 }
      else
        { resp := { Status := "Failure", Message := "Failed checking volume",
                    Device := volumeName },
          calls := [.getVolume volumeName], st := s1 }
    | (.ok _, s1) =>
      { resp := { Status := "Success", Message := "Volume already attached",
                  Device := volumeName },
        calls := [.getVolume volumeName], st := s1 }

/-- The method `Controller.GetVolumeName`. -/
def GetVolumeName {σ : Type} (_c : Controller σ) (s : σ) (getVolumeNameRequest : GoMap) :
    Result σ :=
  match GoMap.get getVolumeNameRequest "volumeName" with
  | none =>
    { resp := { Status := "Failure", Message := "Failed getting volumeName" },
      calls := [], st := s }
  | some volumeName =>
    { resp := { Status := "Success", Message := "Volume Name retrieved",
                VolumeName := volumeName },
      calls := [], st := s }

/-- The method `Controller.WaitForAttach`; the second component is its `error`
result. -/
def WaitForAttach {σ : Type} (_c : Controller σ) (s : σ) (_waitForAttachRequest : GoMap) :
    Result σ × Option GoError :=
  ({ resp := { Attached := true }, calls := [], st := s }, none)

/-- The method `Controller.IsAttached`; the second component is its `error`
result. -/
def IsAttached {σ : Type} (_c : Controller σ) (s : σ) (_isAttachedRequest : GoMap) :
    Result σ × Option GoError :=
  ({ resp := { Attached := true }, calls := [], st := s }, none)

/-- The method `Controller.Detach`. -/
def Detach {σ : Type} (_c : Controller σ) (s : σ) (detachRequest : FlexVolumeDetachRequest) :
    Result σ :=
  { resp := { Status := "Success", Message := "Volume detached successfully",
              Device := detachRequest.Name },
    calls := [], st := s }

/-- The method `Controller.Mount`. The permission `0777` is 511; the test
`err != nil && !os.IsExist(err)` on the result of `MkdirAll` is the filter of
the optional error by `!isExist`. -/
def Mount {σ : Type} (c : Controller σ) (s : σ) (mountRequest : FlexVolumeMountRequest) :
    Result σ :=
  match c.Client.Attach mountRequest.MountDevice s with
  | (.error err, s1) =>
    { resp := { Status := "Failure", Message := "Failed to mount volume " ++ err.goSyntax,
                Device := "" },
      calls := [.attach mountRequest.MountDevice], st := s1 }
  | (.ok mountedPath, s1) =>
    let dir := filepathDir mountRequest.MountPath
    let target := pathJoin mountRequest.MountPath mountRequest.MountDevice
    match c.os.Stat target s1 with
    | (some err, s2) =>
      if err.isNotExist then
        match c.os.MkdirAll dir 511 s2 with
        | (mkErr, s3) =>
          match mkErr.filter (fun e => !e.isExist) with
          | some err3 =>
            { resp := { Status := "Failure",
                        Message := "Failed creating volume directory " ++ err3.goSyntax,
                        Device := "" },
              calls := [.attach mountRequest.MountDevice, .stat target, .mkdirAll dir 511],
              st := s3 }
          | none =>
            let args := ["-s", mountedPath, mountRequest.MountPath]
            match c.os.Output "/bin/ln" args s3 with
            | (some lnErr, s4) =>
              { resp := { Status := "Failure",
                          Message := "Failed running ln command " ++ lnErr.goSyntax,
                          Device := "" },
                calls := [.attach mountRequest.MountDevice, .stat target, .mkdirAll dir 511,
                          .exec "/bin/ln" args],
                st := s4 }
            | (none, s4) =>
              { resp := { Status := "Success",
                          Message := "Volume mounted successfully to " ++ mountedPath,
                          Device := "" },
                calls := [.attach mountRequest.MountDevice, .stat target, .mkdirAll dir 511,
                          .exec "/bin/ln" args],
                st := s4 }
      else
        { resp := { Status := "Failure", Message := "Failed running mount " ++ err.goSyntax,
                    Device := "" },
          calls := [.attach mountRequest.MountDevice, .stat target], st := s2 }
    | (none, s2) =>
      { resp := { Status := "Success",
                  Message := "Volume mounted successfully to " ++ mountedPath,
                  Device := "" },
        calls := [.attach mountRequest.MountDevice, .stat target], st := s2 }

/-- The method `Controller.Unmount`. The test
`err != nil && err.Error() != "fileset not linked"` on the result of `Detach`
is the filter of the optional error by that inequality. -/
def Unmount {σ : Type} (c : Controller σ) (s : σ) (unmountRequest : FlexVolumeUnmountRequest) :
    Result σ :=
  match c.Client.ListVolumes s with
  | (.error err, s1) =>
    { resp := { Status := "Failure", Message := "Error finding the volume " ++ err.goSyntax,
                Device := "" },
      calls := [.listVolumes], st := s1 }
  | (.ok volumes, s1) =>
    match getVolumeForMountpoint unmountRequest.MountPath volumes with
    | (_, some err) =>
      { resp := { Status := "Failure", Message := "Error finding the volume " ++ err.goSyntax,
                  Device := "" },
        calls := [.listVolumes], st := s1 }
    | (volume, none) =>
      match c.Client.Detach volume.Name s1 with
      | (detErr, s2) =>
        match detErr.filter (fun e => e.text ≠ "fileset not linked") with
        | some err2 =>
          { resp := { Status := "Failure",
                      Message := "Failed to unmount volume " ++ err2.goSyntax,
                      Device := "" },
            calls := [.listVolumes, .detach volume.Name], st := s2 }
        | none =>
          { resp := { Status := "Success", Message := "Volume unmounted successfully",
                      Device := "" },
            calls := [.listVolumes, .detach volume.Name], st := s2 }

/-! ## Fixtures and predicates used in the statements -/

/-- The text `t` occurs in `s`. -/
def containsText (s t : String) : Prop := t.data <:+: s.data

/-- A storage client without state that answers every call with a fixed
result. -/
def fixedClient (get : Except GoError VolumeMetadata) (create : Option GoError)
    (att : Except GoError String) (det : Option GoError)
    (list : Except GoError (List VolumeMetadata)) : StorageClient Unit where
  Activate := fun s => (none, s)
  GetVolume := fun _ s => (get, s)
  CreateVolume := fun _ _ s => (create, s)
  Attach := fun _ s => (att, s)
  Detach := fun _ s => (det, s)
  ListVolumes := fun s => (list, s)

/-- A host without state that answers every call with a fixed result. -/
def fixedOS (stat mkdir out : Option GoError) : HostOS Unit where
  Stat := fun _ s => (stat, s)
  MkdirAll := fun _ _ s => (mkdir, s)
  Output := fun _ _ s => (out, s)

/-- The error `GetVolume` gives for an unknown volume. -/
def errVolumeNotFound : GoError := Errorf "Volume not found"

/-- The error `os.Stat` gives for a missing path. -/
def errNoEnt (name : String) : GoError :=
  { text := "stat " ++ name ++ ": no such file or directory",
    goSyntax := "&os.PathError\x7bOp:\"stat\", Path:\"" ++ name ++ "\", Err:0x2\x7d",
    isNotExist := true }

/-- A controller whose client answers `GetVolume` and `CreateVolume` as given
and whose other calls succeed. -/
def attachFixture (get : Except GoError VolumeMetadata) (create : Option GoError) :
    Controller Unit where
  Client := fixedClient get create (.ok "") none (.ok [])
  os := fixedOS none none none

/-- A controller whose client lists the given volumes and answers `Detach` as
given. -/
def unmountFixture (list : List VolumeMetadata) (det : Option GoError) : Controller Unit where
  Client := fixedClient (.error errVolumeNotFound) none (.ok "") det (.ok list)
  os := fixedOS none none none

/-- A controller whose client attaches to the given source path and whose host
answers as given. -/
def mountFixture (src : String) (stat mkdir out : Option GoError) : Controller Unit where
  Client := fixedClient (.error errVolumeNotFound) none (.ok src) none (.ok [])
  os := fixedOS stat mkdir out

/-- The control plane as a registry of volume names: `reg s n` says that `n`
is registered in state `s`. `GetVolume` succeeds exactly for registered names,
fails with "Volume not found" otherwise, and registers nothing; `CreateVolume`
registers an unregistered name and fails with the already-exists text for a
registered one, leaving the state as it is. -/
def IsRegistry {σ : Type} (c : Controller σ) (reg : σ → String → Prop) : Prop :=
  (∀ n s, reg s n → ∃ v s1, c.Client.GetVolume n s = (.ok v, s1) ∧ ∀ m, reg s1 m ↔ reg s m) ∧
  (∀ n s, ¬ reg s n → ∃ e s1, c.Client.GetVolume n s = (.error e, s1) ∧
    e.text = "Volume not found" ∧ ∀ m, reg s1 m ↔ reg s m) ∧
  (∀ n o s, ¬ reg s n → ∃ s1, c.Client.CreateVolume n o s = (none, s1) ∧ reg s1 n) ∧
  (∀ n o s, reg s n → ∃ e, c.Client.CreateVolume n o s = (some e, s) ∧
    e.text = alreadyExistsText n)

/-- The registry client on the list of registered names. -/
def registryClient : StorageClient (List String) where
  Activate := fun s => (none, s)
  GetVolume := fun n s =>
    if n ∈ s then (.ok { Name := n, Mountpoint := "" }, s) else (.error errVolumeNotFound, s)
  CreateVolume := fun n _ s =>
    if n ∈ s then (some (Errorf (alreadyExistsText n)), s) else (none, n :: s)
  Attach := fun _ s => (.ok "", s)
  Detach := fun _ s => (none, s)
  ListVolumes := fun s => (.ok [], s)

/-- The controller over the registry client; its host calls succeed. -/
def registryController : Controller (List String) where
  Client := registryClient
  os := { Stat := fun _ s => (none, s), MkdirAll := fun _ _ s => (none, s),
          Output := fun _ _ s => (none, s) }

/-- The number of `CreateVolume` calls in a trace. -/
def countCreateVolume (calls : List Call) : Nat := (calls.filter Call.isCreateVolume).length

/-- The status of a response is one of the two texts "Success" and
"Failure". -/
def IsSuccessOrFailure (r : FlexVolumeResponse) : Prop :=
  r.Status = "Success" ∨ r.Status = "Failure"

instance (r : FlexVolumeResponse) : Decidable (IsSuccessOrFailure r) := by
  unfold IsSuccessOrFailure
  infer_instance

/-- The error of a command that ends with exit status 1. -/
def errExitStatus1 : GoError :=
  { text := "exit status 1", goSyntax := "&exec.ExitError\x7bProcessState:(*os.ProcessState)(0x1)\x7d" }

/-- The host filesystem as the set of the paths that exist, kept as a list.
`Stat` succeeds exactly on the paths of the set; `MkdirAll` succeeds and makes
its directory exist; the command `/bin/ln -s src dst` on a path `dst` that does
not exist succeeds and makes exactly `dst` exist; on a path that exists it
changes nothing, and succeeds or fails as `lnOverExisting` says; any other
command fails. -/
def pathSetOS (lnOverExisting : Bool) : HostOS (List String) where
  Stat := fun name fs => if name ∈ fs then (none, fs) else (some (errNoEnt name), fs)
  MkdirAll := fun path _ fs => if path ∈ fs then (none, fs) else (none, path :: fs)
  Output := fun name args fs =>
    match name, args with
    | "/bin/ln", ["-s", _, dst] =>
      if dst ∈ fs then (if lnOverExisting then none else some errExitStatus1, fs)
      else (none, dst :: fs)
    | _, _ => (some errExitStatus1, fs)

/-- The controller over the path-set filesystem, with a control plane whose
`Attach` always returns the source path `src`. -/
def pathSetController (lnOverExisting : Bool) (src : String) : Controller (List String) where
  Client :=
    { Activate := fun s => (none, s)
      GetVolume := fun _ s => (.error errVolumeNotFound, s)
      CreateVolume := fun _ _ s => (none, s)
      Attach := fun _ s => (.ok src, s)
      Detach := fun _ s => (none, s)
      ListVolumes := fun s => (.ok [], s) }
  os := pathSetOS lnOverExisting

/-! ## The directory resolver -/

/-- Without a volume at the mountpoint, the resolver returns the zero volume and
the not-found error. -/
theorem getVolumeForMountpoint_none (m : String) (vs : List VolumeMetadata)
    (h : ∀ v ∈ vs, v.Mountpoint ≠ m) :
    getVolumeForMountpoint m vs = ({}, some (Errorf "Volume not found")) := by
  induction vs with
  | nil => rfl
  | cons v rest ih =>
    have hv : v.Mountpoint ≠ m := h v (List.mem_cons_self _ _)
    have hr : ∀ u ∈ rest, u.Mountpoint ≠ m := fun u hu => h u (List.mem_cons_of_mem _ hu)
    simp [getVolumeForMountpoint, hv, ih hr]

/-- The resolver returns the volume at the mountpoint that no earlier volume of
the list shares. -/
theorem getVolumeForMountpoint_split (m : String) (pre post : List VolumeMetadata)
    (v : VolumeMetadata) (hv : v.Mountpoint = m) (hpre : ∀ u ∈ pre, u.Mountpoint ≠ m) :
    getVolumeForMountpoint m (pre ++ v :: post) = (v, none) := by
  induction pre with
  | nil => simp [getVolumeForMountpoint, hv]
  | cons u rest ih =>
    have hu : u.Mountpoint ≠ m := hpre u (List.mem_cons_self _ _)
    have hr : ∀ w ∈ rest, w.Mountpoint ≠ m := fun w hw => hpre w (List.mem_cons_of_mem _ hw)
    simp [getVolumeForMountpoint, hu, ih hr]

/-- A list with a volume at the mountpoint splits at the first such volume. -/
theorem exists_first_match (m : String) (vs : List VolumeMetadata)
    (h : ∃ v ∈ vs, v.Mountpoint = m) :
    ∃ pre v post, vs = pre ++ v :: post ∧ v.Mountpoint = m ∧ ∀ u ∈ pre, u.Mountpoint ≠ m := by
  induction vs with
  | nil => simp at h
  | cons w rest ih =>
    by_cases hw : w.Mountpoint = m
    · exact ⟨[], w, rest, rfl, hw, by simp⟩
    · have h2 : ∃ v ∈ rest, v.Mountpoint = m := by
        obtain ⟨v, hv, hvm⟩ := h
        rcases List.mem_cons.mp hv with rfl | hv2
        · exact absurd hvm hw
        · exact ⟨v, hv2, hvm⟩
      obtain ⟨pre, v, post, e, hv, hpre⟩ := ih h2
      refine ⟨w :: pre, v, post, by simp [e], hv, ?_⟩
      intro u hu
      rcases List.mem_cons.mp hu with rfl | hu2
      · exact hw
      · exact hpre u hu2

/-- C1: `getVolumeForMountpoint m vs` returns, with a nil error, the first
element of `vs` whose mountpoint is `m`, when there is one; it returns the zero
volume with the error "Volume not found" exactly when no element of `vs` has
mountpoint `m`. On the list `[a at /m/a, b at /m/b]`, `/m/b` resolves to `b`
and `/m/c` is not found. -/
theorem getVolumeForMountpoint_spec (m : String) (vs : List VolumeMetadata) :
    ((∃ v ∈ vs, v.Mountpoint = m) →
      ∃ pre v post, vs = pre ++ v :: post ∧ v.Mountpoint = m ∧
        (∀ u ∈ pre, u.Mountpoint ≠ m) ∧ getVolumeForMountpoint m vs = (v, none)) ∧
    (getVolumeForMountpoint m vs = ({}, some (Errorf "Volume not found")) ↔
      ∀ v ∈ vs, v.Mountpoint ≠ m) ∧
    ((getVolumeForMountpoint m vs).2 ≠ none ↔ ∀ v ∈ vs, v.Mountpoint ≠ m) ∧
    (Errorf "Volume not found").text = "Volume not found" ∧
    getVolumeForMountpoint "/m/b"
        [{ Name := "a", Mountpoint := "/m/a" }, { Name := "b", Mountpoint := "/m/b" }]
      = ({ Name := "b", Mountpoint := "/m/b" }, none) ∧
    getVolumeForMountpoint "/m/c"
        [{ Name := "a", Mountpoint := "/m/a" }, { Name := "b", Mountpoint := "/m/b" }]
      = ({ Name := "", Mountpoint := "" }, some (Errorf "Volume not found")) := by
  have hex : (∃ v ∈ vs, v.Mountpoint = m) →
      ∃ pre v post, vs = pre ++ v :: post ∧ v.Mountpoint = m ∧
        (∀ u ∈ pre, u.Mountpoint ≠ m) ∧ getVolumeForMountpoint m vs = (v, none) := by
    intro h
    obtain ⟨pre, v, post, e, hv, hpre⟩ := exists_first_match m vs h
    exact ⟨pre, v, post, e, hv, hpre, e ▸ getVolumeForMountpoint_split m pre post v hv hpre⟩
  have hnone : (getVolumeForMountpoint m vs).2 ≠ none → ∀ v ∈ vs, v.Mountpoint ≠ m := by
    intro h v hv hvm
    obtain ⟨_, w, _, _, _, _, hw⟩ := hex ⟨v, hv, hvm⟩
    exact h (by rw [hw])
  refine ⟨hex, ⟨?_, getVolumeForMountpoint_none m vs⟩, ⟨hnone, ?_⟩, rfl, by decide, by decide⟩
  · intro h
    exact hnone (by rw [h]; simp)
  · intro h
    rw [getVolumeForMountpoint_none m vs h]
    simp

/-! ## Attach -/

/-- C2: an attach request without the key `volumeName` gets a response with
status "Failure", and `Attach` makes no call at all, to the client or to the
host; the collaborators' state is unchanged. -/
theorem Attach_missing_volumeName {σ : Type} (c : Controller σ) (s : σ) (req : GoMap)
    (h : GoMap.get req "volumeName" = none) :
    (Attach c s req).resp.Status = "Failure" ∧ (Attach c s req).calls = [] ∧
      (Attach c s req).st = s := by
  simp [Attach, h]

/-- An instance: a request that only carries `fsType`. -/
theorem Attach_missing_volumeName_witness :
    GoMap.get [("fsType", "ext4")] "volumeName" = none ∧
    (Attach (attachFixture (.ok {}) none) () [("fsType", "ext4")]).resp.Status = "Failure" ∧
    (Attach (attachFixture (.ok {}) none) () [("fsType", "ext4")]).calls = [] ∧
    (Attach (attachFixture (.ok {}) none) () [("fsType", "ext4")]).st = () :=
  ⟨by decide, Attach_missing_volumeName _ _ _ (by decide)⟩

/-- C4: for a request with `volumeName` n, the response of `Attach` always has
device n and follows the table: (1) `GetVolume` succeeds: Success, "Volume
already attached", only `GetVolume` is called; (2) `GetVolume` fails with
"Volume not found" and `CreateVolume` succeeds: Success, "Volume attached
successfully"; (3) `CreateVolume` fails with the already-exists text for n:
Success, "Volume already attached"; (4) `CreateVolume` fails with another text:
Failure; (5) `GetVolume` fails with another text: Failure, "Failed checking
volume", only `GetVolume` is called. The status is "Success" exactly in cases
1, 2 and 3. -/
theorem Attach_table {σ : Type} (c : Controller σ) (s : σ) (req : GoMap) (n : String)
    (hn : GoMap.get req "volumeName" = some n) :
    (Attach c s req).resp.Device = n ∧
    (∀ v s1, c.Client.GetVolume n s = (.ok v, s1) →
      (Attach c s req).resp =
        { Status := "Success", Message := "Volume already attached", Device := n } ∧
      (Attach c s req).calls = [.getVolume n]) ∧
    (∀ e s1 s2, c.Client.GetVolume n s = (.error e, s1) → e.text = "Volume not found" →
      c.Client.CreateVolume n (attachOpts req) s1 = (none, s2) →
      (Attach c s req).resp =
        { Status := "Success", Message := "Volume attached successfully", Device := n } ∧
      (Attach c s req).calls = [.getVolume n, .createVolume n (attachOpts req)]) ∧
    (∀ e s1 e2 s2, c.Client.GetVolume n s = (.error e, s1) → e.text = "Volume not found" →
      c.Client.CreateVolume n (attachOpts req) s1 = (some e2, s2) →
      e2.text = alreadyExistsText n →
      (Attach c s req).resp =
        { Status := "Success", Message := "Volume already attached", Device := n } ∧
      (Attach c s req).calls = [.getVolume n, .createVolume n (attachOpts req)]) ∧
    (∀ e s1 e2 s2, c.Client.GetVolume n s = (.error e, s1) → e.text = "Volume not found" →
      c.Client.CreateVolume n (attachOpts req) s1 = (some e2, s2) →
      e2.text ≠ alreadyExistsText n →
      (Attach c s req).resp =
        { Status := "Failure", Message := "Failed to attach volume: " ++ e2.goSyntax,
          Device := n } ∧
      (Attach c s req).calls = [.getVolume n, .createVolume n (attachOpts req)]) ∧
    (∀ e s1, c.Client.GetVolume n s = (.error e, s1) → e.text ≠ "Volume not found" →
      (Attach c s req).resp =
        { Status := "Failure", Message := "Failed checking volume", Device := n } ∧
      (Attach c s req).calls = [.getVolume n]) ∧
    ((Attach c s req).resp.Status = "Success" ↔
      (∃ v s1, c.Client.GetVolume n s = (.ok v, s1)) ∨
      (∃ e s1, c.Client.GetVolume n s = (.error e, s1) ∧ e.text = "Volume not found" ∧
        ((∃ s2, c.Client.CreateVolume n (attachOpts req) s1 = (none, s2)) ∨
         (∃ e2 s2, c.Client.CreateVolume n (attachOpts req) s1 = (some e2, s2) ∧
            e2.text = alreadyExistsText n)))) := by
  refine ⟨?_, ?_, ?_, ?_, ?_, ?_, ?_⟩
  · simp only [Attach, hn]
    split
    · split
      · split
        · split <;> rfl
        · rfl
      · rfl
    · rfl
  · intro v s1 hg
    simp [Attach, hn, hg]
  · intro e s1 s2 hg he hc
    simp [Attach, hn, hg, he, hc]
  · intro e s1 e2 s2 hg he hc he2
    simp [Attach, hn, hg, he, hc, he2]
  · intro e s1 e2 s2 hg he hc he2
    simp [Attach, hn, hg, he, hc, he2]
  · intro e s1 hg he
    simp [Attach, hn, hg, he]
  · rcases hg : c.Client.GetVolume n s with ⟨g, s1⟩
    cases g with
    | ok v => simp [Attach, hn, hg]
    | error e =>
      by_cases he : e.text = "Volume not found"
      · rcases hc : c.Client.CreateVolume n (attachOpts req) s1 with ⟨cr, s2⟩
        cases cr with
        | none =>
          have hs : (Attach c s req).resp.Status = "Success" := by
            simp [Attach, hn, hg, he, hc]
          exact ⟨fun _ => Or.inr ⟨e, s1, rfl, he, Or.inl ⟨s2, hc⟩⟩, fun _ => hs⟩
        | some e2 =>
          by_cases he2 : e2.text = alreadyExistsText n
          · have hs : (Attach c s req).resp.Status = "Success" := by
              simp [Attach, hn, hg, he, hc, he2]
            exact ⟨fun _ => Or.inr ⟨e, s1, rfl, he, Or.inr ⟨e2, s2, hc, he2⟩⟩, fun _ => hs⟩
          · have hs : (Attach c s req).resp.Status = "Failure" := by
              simp [Attach, hn, hg, he, hc, he2]
            constructor
            · intro h
              rw [hs] at h
              exact absurd h (by decide)
            · rintro (⟨v, t, hv⟩ | ⟨e', t, hv, _, ⟨t2, hc'⟩ | ⟨e3, t2, hc', he3⟩⟩)
              · simp at hv
              · simp at hv
                obtain ⟨rfl, rfl⟩ := hv
                rw [hc] at hc'
                simp at hc'
              · simp at hv
                obtain ⟨rfl, rfl⟩ := hv
                rw [hc] at hc'
                simp at hc'
                exact absurd he3 (hc'.1 ▸ he2)
      · have hs : (Attach c s req).resp.Status = "Failure" := by
          simp [Attach, hn, hg, he]
        constructor
        · intro h
          rw [hs] at h
          exact absurd h (by decide)
        · rintro (⟨v, t, hv⟩ | ⟨e', t, hv, he', _⟩)
          · simp at hv
          · simp at hv
            exact absurd he' (hv.1 ▸ he)

/-- An instance: request `volumeName = v1`, `GetVolume` not found, `CreateVolume`
succeeds. -/
theorem Attach_table_witness :
    GoMap.get [("volumeName", "v1")] "volumeName" = some "v1" ∧
    (Attach (attachFixture (.error errVolumeNotFound) none) () [("volumeName", "v1")]).resp =
      { Status := "Success", Message := "Volume attached successfully", Device := "v1" } ∧
    (Attach (attachFixture (.error errVolumeNotFound) none) () [("volumeName", "v1")]).calls =
      [.getVolume "v1", .createVolume "v1" [("volumeName", "v1")]] :=
  ⟨by decide,
    (Attach_table (attachFixture (.error errVolumeNotFound) none) () [("volumeName", "v1")]
      "v1" (by decide)).2.2.1 errVolumeNotFound () () rfl rfl rfl⟩

/-- C3: against a control plane that is a registry of volume names, two
successive calls of `Attach` with the same request for the name n both answer
"Success", the second call makes no `CreateVolume` call, and the two calls
together make at most one. -/
theorem Attach_idempotent {σ : Type} (c : Controller σ) (reg : σ → String → Prop)
    (hreg : IsRegistry c reg) (s : σ) (req : GoMap) (n : String)
    (hn : GoMap.get req "volumeName" = some n) :
    (Attach c s req).resp.Status = "Success" ∧
    (Attach c (Attach c s req).st req).resp.Status = "Success" ∧
    (∀ call ∈ (Attach c (Attach c s req).st req).calls, call.isCreateVolume = false) ∧
    countCreateVolume ((Attach c s req).calls ++ (Attach c (Attach c s req).st req).calls)
      ≤ 1 := by
  obtain ⟨hget, hmiss, hnew, hdup⟩ := hreg
  have second : ∀ s1, reg s1 n →
      (Attach c s1 req).resp.Status = "Success" ∧ (Attach c s1 req).calls = [.getVolume n] := by
    intro s1 h1
    obtain ⟨v, s2, hg, _⟩ := hget n s1 h1
    simp [Attach, hn, hg]
  by_cases h : reg s n
  · obtain ⟨v, s1, hg, hs1⟩ := hget n s h
    have hst : (Attach c s req).st = s1 := by simp [Attach, hn, hg]
    have hc1 : (Attach c s req).calls = [.getVolume n] := by simp [Attach, hn, hg]
    have h2 := second s1 ((hs1 n).mpr h)
    rw [hst, hc1, h2.2]
    refine ⟨(second s h).1, h2.1, ?_, ?_⟩
    · simp [Call.isCreateVolume]
    · simp [countCreateVolume, Call.isCreateVolume]
  · obtain ⟨e, s1, hg, he, hs1⟩ := hmiss n s h
    have h1 : ¬ reg s1 n := fun hr => h ((hs1 n).mp hr)
    obtain ⟨s2, hc, hr2⟩ := hnew n (attachOpts req) s1 h1
    have hst : (Attach c s req).st = s2 := by simp [Attach, hn, hg, he, hc]
    have hc1 : (Attach c s req).calls = [.getVolume n, .createVolume n (attachOpts req)] := by
      simp [Attach, hn, hg, he, hc]
    have hresp : (Attach c s req).resp.Status = "Success" := by simp [Attach, hn, hg, he, hc]
    have h2 := second s2 hr2
    rw [hst, hc1, h2.2]
    refine ⟨hresp, h2.1, ?_, ?_⟩
    · simp [Call.isCreateVolume]
    · simp [countCreateVolume, Call.isCreateVolume]

/-- The registry client on lists of names is a registry. -/
theorem registryController_isRegistry :
    IsRegistry registryController (fun s n => n ∈ s) := by
  refine ⟨?_, ?_, ?_, ?_⟩
  · intro n s h
    exact ⟨{ Name := n, Mountpoint := "" }, s, by simp [registryController, registryClient, h],
      fun _ => Iff.rfl⟩
  · intro n s h
    exact ⟨errVolumeNotFound, s, by simp [registryController, registryClient, h], rfl,
      fun _ => Iff.rfl⟩
  · intro n o s h
    exact ⟨n :: s, by simp [registryController, registryClient, h], List.mem_cons_self _ _⟩
  · intro n o s h
    exact ⟨Errorf (alreadyExistsText n), by simp [registryController, registryClient, h], rfl⟩

/-- An instance: the empty registry and the request `volumeName = v1`. -/
theorem Attach_idempotent_witness :
    IsRegistry registryController (fun s n => n ∈ s) ∧
    GoMap.get [("volumeName", "v1")] "volumeName" = some "v1" ∧
    (Attach registryController [] [("volumeName", "v1")]).resp.Status = "Success" ∧
    (Attach registryController (Attach registryController [] [("volumeName", "v1")]).st
      [("volumeName", "v1")]).resp.Status = "Success" ∧
    (∀ call ∈ (Attach registryController
        (Attach registryController [] [("volumeName", "v1")]).st
        [("volumeName", "v1")]).calls, call.isCreateVolume = false) ∧
    countCreateVolume ((Attach registryController [] [("volumeName", "v1")]).calls ++
      (Attach registryController (Attach registryController [] [("volumeName", "v1")]).st
        [("volumeName", "v1")]).calls) ≤ 1 :=
  ⟨registryController_isRegistry, by decide,
    Attach_idempotent registryController (fun s n => n ∈ s) registryController_isRegistry []
      [("volumeName", "v1")] "v1" (by decide)⟩

/-! ## Unmount -/

/-- C5: when `ListVolumes` succeeds with a list in which no volume has the
request's mount path as mountpoint, `Unmount` answers "Failure" with a message
that contains "finding the volume", and makes no `Detach` call: its only call
is `ListVolumes`. -/
theorem Unmount_not_listed {σ : Type} (c : Controller σ) (s s1 : σ)
    (req : FlexVolumeUnmountRequest) (vs : List VolumeMetadata)
    (hl : c.Client.ListVolumes s = (.ok vs, s1))
    (hno : ∀ v ∈ vs, v.Mountpoint ≠ req.MountPath) :
    (Unmount c s req).resp.Status = "Failure" ∧
    containsText (Unmount c s req).resp.Message "finding the volume" ∧
    (Unmount c s req).resp.Message =
      "Error finding the volume &errors.errorString\x7bs:\"Volume not found\"\x7d" ∧
    (Unmount c s req).calls = [.listVolumes] ∧
    (∀ call ∈ (Unmount c s req).calls, call.isDetach = false) := by
  have hg := getVolumeForMountpoint_none req.MountPath vs hno
  have hr : Unmount c s req =
      { resp := { Status := "Failure",
                  Message := "Error finding the volume " ++ (Errorf "Volume not found").goSyntax,
                  Device := "" },
        calls := [.listVolumes], st := s1 } := by
    simp [Unmount, hl, hg]
  rw [hr]
  have hm : "Error finding the volume " ++ (Errorf "Volume not found").goSyntax =
      "Error finding the volume &errors.errorString\x7bs:\"Volume not found\"\x7d" := by
    decide
  refine ⟨rfl, ?_, hm, rfl, ?_⟩
  · show containsText ("Error finding the volume " ++ (Errorf "Volume not found").goSyntax)
      "finding the volume"
    rw [hm]
    exact ⟨"Error ".data, " &errors.errorString\x7bs:\"Volume not found\"\x7d".data, by decide⟩
  · simp [Call.isDetach]

/-- An instance: one listed volume at `/m/a`, unmount of `/m/c`. -/
theorem Unmount_not_listed_witness :
    (unmountFixture [{ Name := "a", Mountpoint := "/m/a" }] none).Client.ListVolumes ()
      = (.ok [{ Name := "a", Mountpoint := "/m/a" }], ()) ∧
    (∀ v ∈ [({ Name := "a", Mountpoint := "/m/a" } : VolumeMetadata)],
      v.Mountpoint ≠ "/m/c") ∧
    (Unmount (unmountFixture [{ Name := "a", Mountpoint := "/m/a" }] none) ()
      { MountPath := "/m/c" }).resp.Status = "Failure" ∧
    (Unmount (unmountFixture [{ Name := "a", Mountpoint := "/m/a" }] none) ()
      { MountPath := "/m/c" }).calls = [.listVolumes] :=
  have h := Unmount_not_listed (unmountFixture [{ Name := "a", Mountpoint := "/m/a" }] none)
    () () { MountPath := "/m/c" } [{ Name := "a", Mountpoint := "/m/a" }] rfl (by decide)
  ⟨rfl, by decide, h.1, h.2.2.2.1⟩

/-- C6: when `ListVolumes` succeeds and `v` is the first listed volume whose
mountpoint is the request's mount path, `Unmount` calls `ListVolumes` and then
`Detach` exactly once, with the name of `v`; it answers "Success", with the
message "Volume unmounted successfully", exactly when that `Detach` succeeds or
fails with the text "fileset not linked", and "Failure" otherwise. -/
theorem Unmount_listed {σ : Type} (c : Controller σ) (s s1 s2 : σ)
    (req : FlexVolumeUnmountRequest) (pre post : List VolumeMetadata) (v : VolumeMetadata)
    (det : Option GoError)
    (hl : c.Client.ListVolumes s = (.ok (pre ++ v :: post), s1))
    (hv : v.Mountpoint = req.MountPath)
    (hpre : ∀ u ∈ pre, u.Mountpoint ≠ req.MountPath)
    (hd : c.Client.Detach v.Name s1 = (det, s2)) :
    (Unmount c s req).calls = [.listVolumes, .detach v.Name] ∧
    ((Unmount c s req).calls.filter Call.isDetach).length = 1 ∧
    ((Unmount c s req).resp.Status = "Success" ↔
      det = none ∨ ∃ e, det = some e ∧ e.text = "fileset not linked") ∧
    ((det = none ∨ ∃ e, det = some e ∧ e.text = "fileset not linked") →
      (Unmount c s req).resp =
        { Status := "Success", Message := "Volume unmounted successfully", Device := "" }) ∧
    (∀ e, det = some e → e.text ≠ "fileset not linked" →
      (Unmount c s req).resp =
        { Status := "Failure", Message := "Failed to unmount volume " ++ e.goSyntax,
          Device := "" }) := by
  have hg := getVolumeForMountpoint_split req.MountPath pre post v hv hpre
  cases det with
  | none =>
    have hr : Unmount c s req =
        { resp := { Status := "Success", Message := "Volume unmounted successfully",
                    Device := "" },
          calls := [.listVolumes, .detach v.Name], st := s2 } := by
      simp [Unmount, hl, hg, hd]
    rw [hr]
    simp [Call.isDetach]
  | some e =>
    by_cases he : e.text = "fileset not linked"
    · have hr : Unmount c s req =
          { resp := { Status := "Success", Message := "Volume unmounted successfully",
                      Device := "" },
            calls := [.listVolumes, .detach v.Name], st := s2 } := by
        simp [Unmount, hl, hg, hd, Option.filter, he]
      rw [hr]
      simp [Call.isDetach, he]
    · have hr : Unmount c s req =
          { resp := { Status := "Failure",
                      Message := "Failed to unmount volume " ++ e.goSyntax, Device := "" },
            calls := [.listVolumes, .detach v.Name], st := s2 } := by
        simp [Unmount, hl, hg, hd, Option.filter, he]
      rw [hr]
      simp [Call.isDetach, he]

/-- An instance: volumes `a`, `b`, `b2` listed, the last two at `/m/b`; `Detach`
fails with "fileset not linked". -/
theorem Unmount_listed_witness :
    (Unmount
      (unmountFixture [{ Name := "a", Mountpoint := "/m/a" }, { Name := "b", Mountpoint := "/m/b" },
        { Name := "b2", Mountpoint := "/m/b" }] (some (Errorf "fileset not linked")))
      () { MountPath := "/m/b" }).calls = [.listVolumes, .detach "b"] ∧
    (Unmount
      (unmountFixture [{ Name := "a", Mountpoint := "/m/a" }, { Name := "b", Mountpoint := "/m/b" },
        { Name := "b2", Mountpoint := "/m/b" }] (some (Errorf "fileset not linked")))
      () { MountPath := "/m/b" }).resp =
        { Status := "Success", Message := "Volume unmounted successfully", Device := "" } :=
  have h := Unmount_listed
    (unmountFixture [{ Name := "a", Mountpoint := "/m/a" }, { Name := "b", Mountpoint := "/m/b" },
      { Name := "b2", Mountpoint := "/m/b" }] (some (Errorf "fileset not linked")))
    () () () { MountPath := "/m/b" } [{ Name := "a", Mountpoint := "/m/a" }]
    [{ Name := "b2", Mountpoint := "/m/b" }] { Name := "b", Mountpoint := "/m/b" }
    (some (Errorf "fileset not linked")) rfl rfl (by decide) rfl
  ⟨h.1, h.2.2.2.1 (Or.inr ⟨_, rfl, rfl⟩)⟩

/-! ## Mount -/

/-- C7: when the control plane's `Attach` succeeds with a source path and the
existence check of `path.Join(MountPath, MountDevice)` succeeds, `Mount`
answers "Success" with an empty device and the message "Volume mounted
successfully to" followed by the source, and its only calls are `Attach` and
the existence check: no directory is created and no command is run. -/
theorem Mount_existing_target {σ : Type} (c : Controller σ) (s s1 s2 : σ)
    (req : FlexVolumeMountRequest) (src : String)
    (ha : c.Client.Attach req.MountDevice s = (.ok src, s1))
    (hs : c.os.Stat (pathJoin req.MountPath req.MountDevice) s1 = (none, s2)) :
    (Mount c s req).resp =
      { Status := "Success", Message := "Volume mounted successfully to " ++ src,
        Device := "" } ∧
    (Mount c s req).calls =
      [.attach req.MountDevice, .stat (pathJoin req.MountPath req.MountDevice)] ∧
    (∀ call ∈ (Mount c s req).calls, call.isMkdirAll = false ∧ call.isExec = false) := by
  have hr : Mount c s req =
      { resp := { Status := "Success", Message := "Volume mounted successfully to " ++ src,
                  Device := "" },
        calls := [.attach req.MountDevice, .stat (pathJoin req.MountPath req.MountDevice)],
        st := s2 } := by
    simp [Mount, ha, hs]
  rw [hr]
  simp [Call.isMkdirAll, Call.isExec]

/-- An instance: device `v1`, mount path `/pods/p1`, source `/ubiquity/v1`, the
target exists. -/
theorem Mount_existing_target_witness :
    (Mount (mountFixture "/ubiquity/v1" none none none) ()
      { MountPath := "/pods/p1", MountDevice := "v1" }).resp =
      { Status := "Success", Message := "Volume mounted successfully to /ubiquity/v1",
        Device := "" } ∧
    (Mount (mountFixture "/ubiquity/v1" none none none) ()
      { MountPath := "/pods/p1", MountDevice := "v1" }).calls =
      [.attach "v1", .stat "/pods/p1/v1"] :=
  have h := Mount_existing_target (mountFixture "/ubiquity/v1" none none none) () () ()
    { MountPath := "/pods/p1", MountDevice := "v1" } "/ubiquity/v1" rfl rfl
  ⟨h.1.trans (by decide), h.2.1.trans (by decide)⟩

/-- C8: when the control plane's `Attach` returns the source path S and the
existence check of `path.Join(MountPath, MountDevice)` fails with a
does-not-exist error, `Mount` next calls `MkdirAll` on `filepath.Dir(MountPath)`
with permission 0777. If that succeeds or fails with an already-exists error,
`Mount` runs `/bin/ln -s S MountPath` exactly once and answers "Success" when
the command succeeds and "Failure" with "Failed running ln command" when it
fails. If `MkdirAll` fails otherwise, `Mount` answers "Failure" with "Failed
creating volume directory" and runs no command. -/
theorem Mount_fresh {σ : Type} (c : Controller σ) (s s1 s2 s3 : σ)
    (req : FlexVolumeMountRequest) (S : String) (e : GoError) (mk : Option GoError)
    (ha : c.Client.Attach req.MountDevice s = (.ok S, s1))
    (hs : c.os.Stat (pathJoin req.MountPath req.MountDevice) s1 = (some e, s2))
    (hne : e.isNotExist = true)
    (hm : c.os.MkdirAll (filepathDir req.MountPath) 511 s2 = (mk, s3)) :
    [Call.attach req.MountDevice, .stat (pathJoin req.MountPath req.MountDevice),
      .mkdirAll (filepathDir req.MountPath) 511] <+: (Mount c s req).calls ∧
    ((mk = none ∨ ∃ e1, mk = some e1 ∧ e1.isExist = true) →
      (Mount c s req).calls =
        [.attach req.MountDevice, .stat (pathJoin req.MountPath req.MountDevice),
          .mkdirAll (filepathDir req.MountPath) 511,
          .exec "/bin/ln" ["-s", S, req.MountPath]] ∧
      ((Mount c s req).calls.filter Call.isExec).length = 1 ∧
      (∀ s4, c.os.Output "/bin/ln" ["-s", S, req.MountPath] s3 = (none, s4) →
        (Mount c s req).resp =
          { Status := "Success", Message := "Volume mounted successfully to " ++ S,
            Device := "" }) ∧
      (∀ e2 s4, c.os.Output "/bin/ln" ["-s", S, req.MountPath] s3 = (some e2, s4) →
        (Mount c s req).resp =
          { Status := "Failure", Message := "Failed running ln command " ++ e2.goSyntax,
            Device := "" })) ∧
    (∀ e1, mk = some e1 → e1.isExist = false →
      (Mount c s req).resp =
        { Status := "Failure", Message := "Failed creating volume directory " ++ e1.goSyntax,
          Device := "" } ∧
      (Mount c s req).calls =
        [.attach req.MountDevice, .stat (pathJoin req.MountPath req.MountDevice),
          .mkdirAll (filepathDir req.MountPath) 511] ∧
      (∀ call ∈ (Mount c s req).calls, call.isExec = false)) := by
  have tolerated : (mk = none ∨ ∃ e1, mk = some e1 ∧ e1.isExist = true) →
      mk.filter (fun x => !x.isExist) = none := by
    rintro (rfl | ⟨e1, rfl, h1⟩)
    · rfl
    · simp [Option.filter, h1]
  have linked : (mk = none ∨ ∃ e1, mk = some e1 ∧ e1.isExist = true) →
      (Mount c s req).calls =
        [.attach req.MountDevice, .stat (pathJoin req.MountPath req.MountDevice),
          .mkdirAll (filepathDir req.MountPath) 511,
          .exec "/bin/ln" ["-s", S, req.MountPath]] := by
    intro h
    rcases ho : c.os.Output "/bin/ln" ["-s", S, req.MountPath] s3 with ⟨o, s4⟩
    cases o <;> simp [Mount, ha, hs, hne, hm, tolerated h, ho]
  have failed : ∀ e1, mk = some e1 → e1.isExist = false →
      Mount c s req =
        { resp := { Status := "Failure",
                    Message := "Failed creating volume directory " ++ e1.goSyntax,
                    Device := "" },
          calls := [.attach req.MountDevice, .stat (pathJoin req.MountPath req.MountDevice),
            .mkdirAll (filepathDir req.MountPath) 511],
          st := s3 } := by
    intro e1 h1 h2
    subst h1
    simp [Mount, ha, hs, hne, hm, Option.filter, h2]
  refine ⟨?_, ?_, ?_⟩
  · by_cases h : mk = none ∨ ∃ e1, mk = some e1 ∧ e1.isExist = true
    · rw [linked h]
      exact ⟨[.exec "/bin/ln" ["-s", S, req.MountPath]], rfl⟩
    · cases mk with
      | none => exact absurd (Or.inl rfl) h
      | some e1 =>
        have h2 : e1.isExist = false := by
          cases hx : e1.isExist
          · rfl
          · exact absurd (Or.inr ⟨e1, rfl, hx⟩) h
        rw [failed e1 rfl h2]
  · intro h
    refine ⟨linked h, ?_, ?_, ?_⟩
    · rw [linked h]
      simp [Call.isExec]
    · intro s4 ho
      simp [Mount, ha, hs, hne, hm, tolerated h, ho]
    · intro e2 s4 ho
      simp [Mount, ha, hs, hne, hm, tolerated h, ho]
  · intro e1 h1 h2
    rw [failed e1 h1 h2]
    simp [Call.isExec]

/-- An instance: device `v1`, mount path `/pods/p1`, source `/ubiquity/v1`, the
target does not exist: `/pods` is created and `/pods/p1` linked to the source. -/
theorem Mount_fresh_witness :
    (errNoEnt "/pods/p1/v1").isNotExist = true ∧
    filepathDir "/pods/p1" = "/pods" ∧
    (Mount (mountFixture "/ubiquity/v1" (some (errNoEnt "/pods/p1/v1")) none none) ()
      { MountPath := "/pods/p1", MountDevice := "v1" }).calls =
      [.attach "v1", .stat "/pods/p1/v1", .mkdirAll "/pods" 511,
        .exec "/bin/ln" ["-s", "/ubiquity/v1", "/pods/p1"]] ∧
    (Mount (mountFixture "/ubiquity/v1" (some (errNoEnt "/pods/p1/v1")) none none) ()
      { MountPath := "/pods/p1", MountDevice := "v1" }).resp =
      { Status := "Success", Message := "Volume mounted successfully to /ubiquity/v1",
        Device := "" } :=
  have h := (Mount_fresh (mountFixture "/ubiquity/v1" (some (errNoEnt "/pods/p1/v1")) none none)
    () () () () { MountPath := "/pods/p1", MountDevice := "v1" } "/ubiquity/v1"
    (errNoEnt "/pods/p1/v1") none rfl (by decide) rfl rfl).2.1 (Or.inl rfl)
  ⟨rfl, by decide, h.1.trans (by decide), (h.2.2.1 () rfl).trans (by decide)⟩

/-! ## The response envelope -/

/-- C9, as stated, fails: the response of `WaitForAttach` on an empty request
has a status that is neither "Success" nor "Failure". -/
theorem WaitForAttach_status_not_success_or_failure :
    ¬ IsSuccessOrFailure (WaitForAttach (attachFixture (.ok {}) none) () []).1.resp := by
  decide

/-- C9, amended: `Init`, `Attach`, `GetVolumeName`, `Detach`, `Mount` and
`Unmount` answer, for every request and every behaviour of the client and the
host, with a status that is "Success" or "Failure"; `WaitForAttach` and
`IsAttached` answer with a nil error and a response whose only set field is
`Attached = true`, so that its status is the empty text. -/
theorem lifecycle_status {σ : Type} (c : Controller σ) (s : σ) (m : GoMap)
    (d : FlexVolumeDetachRequest) (mr : FlexVolumeMountRequest)
    (ur : FlexVolumeUnmountRequest) :
    IsSuccessOrFailure (Init c s).resp ∧
    IsSuccessOrFailure (Attach c s m).resp ∧
    IsSuccessOrFailure (GetVolumeName c s m).resp ∧
    IsSuccessOrFailure (Detach c s d).resp ∧
    IsSuccessOrFailure (Mount c s mr).resp ∧
    IsSuccessOrFailure (Unmount c s ur).resp ∧
    (WaitForAttach c s m).1.resp =
      { Status := "", Message := "", Device := "", Attached := true, VolumeName := "" } ∧
    (WaitForAttach c s m).2 = none ∧
    (IsAttached c s m).1.resp =
      { Status := "", Message := "", Device := "", Attached := true, VolumeName := "" } ∧
    (IsAttached c s m).2 = none := by
  refine ⟨?_, ?_, ?_, ?_, ?_, ?_, rfl, rfl, rfl, rfl⟩
  · rcases ha : c.Client.Activate s with ⟨a, s1⟩
    cases a <;> simp [Init, ha, IsSuccessOrFailure]
  · cases hn : GoMap.get m "volumeName" with
    | none => simp [Attach, hn, IsSuccessOrFailure]
    | some n =>
      rcases hg : c.Client.GetVolume n s with ⟨g, s1⟩
      cases g with
      | ok v => simp [Attach, hn, hg, IsSuccessOrFailure]
      | error e =>
        by_cases he : e.text = "Volume not found"
        · rcases hc : c.Client.CreateVolume n (attachOpts m) s1 with ⟨cr, s2⟩
          cases cr with
          | none => simp [Attach, hn, hg, he, hc, IsSuccessOrFailure]
          | some e2 =>
            by_cases he2 : e2.text = alreadyExistsText n <;>
              simp [Attach, hn, hg, he, hc, he2, IsSuccessOrFailure]
        · simp [Attach, hn, hg, he, IsSuccessOrFailure]
  · cases hn : GoMap.get m "volumeName" <;> simp [GetVolumeName, hn, IsSuccessOrFailure]
  · simp [Detach, IsSuccessOrFailure]
  · rcases ha : c.Client.Attach mr.MountDevice s with ⟨a, s1⟩
    cases a with
    | error e => simp [Mount, ha, IsSuccessOrFailure]
    | ok src =>
      rcases hs : c.os.Stat (pathJoin mr.MountPath mr.MountDevice) s1 with ⟨st, s2⟩
      cases st with
      | none => simp [Mount, ha, hs, IsSuccessOrFailure]
      | some e =>
        cases hne : e.isNotExist with
        | false => simp [Mount, ha, hs, hne, IsSuccessOrFailure]
        | true =>
          rcases hm : c.os.MkdirAll (filepathDir mr.MountPath) 511 s2 with ⟨mk, s3⟩
          cases hf : mk.filter (fun x => !x.isExist) with
          | some e1 => simp [Mount, ha, hs, hne, hm, hf, IsSuccessOrFailure]
          | none =>
            rcases ho : c.os.Output "/bin/ln" ["-s", src, mr.MountPath] s3 with ⟨o, s4⟩
            cases o <;> simp [Mount, ha, hs, hne, hm, hf, ho, IsSuccessOrFailure]
  · rcases hl : c.Client.ListVolumes s with ⟨l, s1⟩
    cases l with
    | error e => simp [Unmount, hl, IsSuccessOrFailure]
    | ok vs =>
      rcases hg : getVolumeForMountpoint ur.MountPath vs with ⟨v, ge⟩
      cases ge with
      | some e => simp [Unmount, hl, hg, IsSuccessOrFailure]
      | none =>
        rcases hd : c.Client.Detach v.Name s1 with ⟨det, s2⟩
        cases det with
        | none => simp [Unmount, hl, hg, hd, IsSuccessOrFailure]
        | some e =>
          by_cases he : e.text = "fileset not linked" <;>
            simp [Unmount, hl, hg, hd, Option.filter, he, IsSuccessOrFailure]

/-! ## Mount, repeated -/

/-- C10 on the path-set filesystem, from the empty filesystem, for device `v1`,
mount path `/pods/p1` and source `/ubiquity/v1`: the first `Mount` takes the
fresh-creation path, answers "Success" and leaves exactly `/pods` and
`/pods/p1` existing; the second `Mount` checks `/pods/p1/v1`, which does not
exist, and calls `MkdirAll` and `/bin/ln` again, whether a link over an
existing path succeeds or fails. -/
theorem Mount_twice_repeats_creation :
    pathJoin "/pods/p1" "v1" = "/pods/p1/v1" ∧
    (Mount (pathSetController false "/ubiquity/v1") []
      { MountPath := "/pods/p1", MountDevice := "v1" }).resp.Status = "Success" ∧
    (Mount (pathSetController false "/ubiquity/v1") []
      { MountPath := "/pods/p1", MountDevice := "v1" }).calls =
      [.attach "v1", .stat "/pods/p1/v1", .mkdirAll "/pods" 511,
        .exec "/bin/ln" ["-s", "/ubiquity/v1", "/pods/p1"]] ∧
    (Mount (pathSetController false "/ubiquity/v1") []
      { MountPath := "/pods/p1", MountDevice := "v1" }).st = ["/pods/p1", "/pods"] ∧
    (Mount (pathSetController false "/ubiquity/v1") ["/pods/p1", "/pods"]
      { MountPath := "/pods/p1", MountDevice := "v1" }).calls =
      [.attach "v1", .stat "/pods/p1/v1", .mkdirAll "/pods" 511,
        .exec "/bin/ln" ["-s", "/ubiquity/v1", "/pods/p1"]] ∧
    (Mount (pathSetController false "/ubiquity/v1") ["/pods/p1", "/pods"]
      { MountPath := "/pods/p1", MountDevice := "v1" }).resp.Status = "Failure" ∧
    (Mount (pathSetController true "/ubiquity/v1") ["/pods/p1", "/pods"]
      { MountPath := "/pods/p1", MountDevice := "v1" }).calls =
      [.attach "v1", .stat "/pods/p1/v1", .mkdirAll "/pods" 511,
        .exec "/bin/ln" ["-s", "/ubiquity/v1", "/pods/p1"]] ∧
    (Mount (pathSetController true "/ubiquity/v1") ["/pods/p1", "/pods"]
      { MountPath := "/pods/p1", MountDevice := "v1" }).resp.Status = "Success" := by
  refine ⟨?_, ?_, ?_, ?_, ?_, ?_, ?_, ?_⟩ <;> decide

end Ubiquity
